import Mathlib

/-!
Verification of the 2048-frontend analytics dashboard core
(Selection State Machine, Per-Student Aggregator, Aggregate Resolver,
Display Projection), shallowly embedded from src/src/App.tsx,
src/unnamed/part_008 (ProgressChart) and src/src/services/AuthService.ts.

Modelling conventions:
- JavaScript nullable numbers become Option Int; the JS truthiness test
  used by the source (if (x)) is idTruthy, which is false for both null
  and 0.
- Nullable strings (completion_date, engagement_date, email fields)
  become Option String; JS truthiness is false for null and the empty
  string.
- The loosely typed aggregate rows (the source stores them in any[]
  arrays and reads fields dynamically) are modelled by one denormalized
  record AggRow carrying the superset of fields the core reads; each of
  the twelve tables populates the fields relevant to its level.
- Asynchronous fetches are modelled by an explicit environment Env of
  total response functions (the success path of the gateway); the
  stale-response analysis additionally models the student fetch as
  separate request-start and response-arrival transitions, exactly the
  two synchronous halves of handleStudentSelection around its await.
-/

namespace Dashboard

/-- JS truthiness of a nullable number: null and 0 are falsy. -/
def idTruthy : Option Int → Bool
  | none => false
  | some x => x != 0

/-- JS truthiness of a nullable string: null and the empty string are falsy. -/
def strTruthy : Option String → Bool
  | none => false
  | some s => s != ""

/-- JS x || d for a nullable string x. -/
def jsOrStr : Option String → String → String
  | none, d => d
  | some s, d => if s = "" then d else s

/-- Raw per-lesson record for one student, as returned by the
student-data endpoint (fields read by App.tsx and ProgressChart). -/
structure LessonRecord where
  lesson_id : Int
  lesson_name : String
  chapter_id : Int
  chapter_name : String
  course_id : Int
  course_name : String
  collection_id : Int
  collection_name : String
  curriculum_id : Int
  curriculum_name : String
  is_required : Bool
  completion_date : Option String
  engagement_date : Option String
deriving Repr, DecidableEq

/-- Denormalized aggregate row: superset of the fields the core reads
from the twelve loosely typed materialized-view tables. -/
structure AggRow where
  school_id : Int
  school_name : String
  cohort_id : Int
  cohort_name : String
  curriculum_id : Int
  curriculum_name : String
  collection_id : Int
  collection_name : String
  course_id : Int
  course_name : String
  chapter_id : Int
  chapter_name : String
  student_id : Int
  student_email : Option String
  student_first : Option String
  student_last : Option String
  total_lessons_expected : Nat
  total_lessons_completed : Nat
  required_lessons_expected : Nat
  required_lessons_completed : Nat
deriving Repr, DecidableEq

/-- Student entry of the studentsForSelector list. -/
structure Student where
  id : Int
  student_email : String
  student_first : String
  student_last : String
  school_id : Int
deriving Repr, DecidableEq

/-- Cohort entry as loaded by getCohorts. -/
structure Cohort where
  id : Int
  cohort_name : String
deriving Repr, DecidableEq

/-- Faculty user supplied by the authentication collaborator. -/
structure FacultyUser where
  id : Int
  email : String
  school_id : Int
  role : String
deriving Repr, DecidableEq

/-- The uniform four-number-plus-title shape consumed by ProgressChart
(output of calculatedStudentMetrics and of the resolver). -/
structure Metrics where
  totalLessons : Nat
  totalCompleted : Nat
  requiredLessons : Nat
  requiredCompleted : Nat
  title : String
deriving Repr, DecidableEq

/-- The centralized App.tsx state touched by the core. -/
structure AppState where
  selectedSchoolId : Option Int
  selectedCohortId : Option Int
  selectedStudentId : Option Int
  individualStudentData : Option (List LessonRecord)
  schoolAggregates : List AggRow
  curriculumAggregates : List AggRow
  collectionAggregates : List AggRow
  courseAggregates : List AggRow
  chapterAggregates : List AggRow
  studentAggregates : List AggRow
  studentsForSelector : List Student
  cohortAggregates : List AggRow
  cohortCurriculumAggregates : List AggRow
  cohortCollectionAggregates : List AggRow
  cohortCourseAggregates : List AggRow
  cohortChapterAggregates : List AggRow
  cohortStudentAggregates : List AggRow
  selectedCurriculumId : Option Int
  selectedCollectionId : Option Int
  selectedCourseId : Option Int
  selectedChapterId : Option Int
  cohorts : List Cohort
  error : Option String
  loading : Bool
  studentLoading : Bool
deriving Repr

/-- The one batched response of getAggregatedDataForSchool. -/
structure SchoolBundle where
  schoolAggregate : List AggRow
  curriculumAggregate : List AggRow
  schoolCollectionAggregate : List AggRow
  schoolCourseAggregate : List AggRow
  schoolChapterAggregate : List AggRow
  studentAggregate : List AggRow
  cohortAggregate : List AggRow
  cohortCurriculumAggregate : List AggRow
  cohortCollectionAggregate : List AggRow
  cohortCourseAggregate : List AggRow
  cohortChapterAggregate : List AggRow
  cohortStudentAggregate : List AggRow
  schoolStudentAggregate : List AggRow

/-- External collaborators: current user, the canAccessSchool oracle and
the gateway fetches (modelled on their success path as total functions). -/
structure Env where
  currentUser : Option FacultyUser
  canAccessSchool : Int → Bool
  getAggregatedDataForSchool : Int → SchoolBundle
  getCohorts : Int → List Cohort
  getIndividualStudentData : Int → List LessonRecord

/-- studentsForSelector mapping applied to a student aggregate row. -/
def studentFromAggregate (r : AggRow) : Student :=
  { id := r.student_id
    student_email := jsOrStr r.student_email ""
    student_first := jsOrStr r.student_first ""
    student_last := jsOrStr r.student_last ""
    school_id := r.school_id }

/-- The access-denial condition of handleSchoolSelection: a current user
exists, is not supaadmin, and canAccessSchool refuses the school. -/
def accessDenied (env : Env) (sid : Int) : Bool :=
  match env.currentUser with
  | none => false
  | some u => !(u.role == "supaadmin") && !(env.canAccessSchool sid)

/-- handleSchoolSelection (App.tsx): falsy id clears the school-scoped
data; otherwise the access check may refuse; otherwise cohort, student
and lesson records are cleared, the school is set, and the twelve
aggregate tables, cohorts and studentsForSelector are replaced from the
batched fetch. The four curriculum filter ids are never touched. -/
def handleSchoolSelection (env : Env) (st : AppState) (schoolId : Option Int) :
    AppState :=
  if !(idTruthy schoolId) then
    { st with
      selectedSchoolId := none
      selectedCohortId := none
      cohorts := []
      schoolAggregates := []
      curriculumAggregates := []
      collectionAggregates := []
      courseAggregates := []
      chapterAggregates := []
      studentAggregates := []
      studentsForSelector := []
      selectedStudentId := none
      individualStudentData := none }
  else
    match schoolId with
    | none => st
    | some sid =>
      if accessDenied env sid then
        { st with error := some "You do not have permission to access this school" }
      else
        let bundle := env.getAggregatedDataForSchool sid
        let cohortsData := env.getCohorts sid
        { st with
          loading := true
          error := none
          selectedCohortId := none
          selectedStudentId := none
          individualStudentData := none
          selectedSchoolId := some sid
          schoolAggregates := bundle.schoolAggregate
          curriculumAggregates := bundle.curriculumAggregate
          collectionAggregates := bundle.schoolCollectionAggregate
          courseAggregates := bundle.schoolCourseAggregate
          chapterAggregates := bundle.schoolChapterAggregate
          studentAggregates := bundle.studentAggregate
          cohorts := cohortsData
          cohortAggregates := bundle.cohortAggregate
          cohortCurriculumAggregates := bundle.cohortCurriculumAggregate
          cohortCollectionAggregates := bundle.cohortCollectionAggregate
          cohortCourseAggregates := bundle.cohortCourseAggregate
          cohortChapterAggregates := bundle.cohortChapterAggregate
          cohortStudentAggregates := bundle.cohortStudentAggregate
          studentsForSelector := bundle.schoolStudentAggregate.map studentFromAggregate }

/-- handleCurriculumSelection: sets curriculum, clears collection,
course and chapter. -/
def handleCurriculumSelection (st : AppState) (curriculumId : Option Int) :
    AppState :=
  { st with
    selectedCurriculumId := curriculumId
    selectedCollectionId := none
    selectedCourseId := none
    selectedChapterId := none }

/-- handleCollectionSelection: sets collection, clears course and chapter. -/
def handleCollectionSelection (st : AppState) (collectionId : Option Int) :
    AppState :=
  { st with
    selectedCollectionId := collectionId
    selectedCourseId := none
    selectedChapterId := none }

/-- handleCourseSelection: sets course, clears chapter. -/
def handleCourseSelection (st : AppState) (courseId : Option Int) : AppState :=
  { st with
    selectedCourseId := courseId
    selectedChapterId := none }

/-- handleChapterSelection: sets chapter only. -/
def handleChapterSelection (st : AppState) (chapterId : Option Int) : AppState :=
  { st with selectedChapterId := chapterId }

/-- handleCohortSelection: falsy id clears cohort/student and (when a
school is selected and student aggregates exist) resets the selector
list to the school-wide students; a truthy id sets the cohort, clears
the student, and rebuilds the selector list from the cohort student
aggregate rows of that cohort. -/
def handleCohortSelection (st : AppState) (cohortId : Option Int) : AppState :=
  if !(idTruthy cohortId) then
    let st1 := { st with
      selectedCohortId := none
      selectedStudentId := none
      individualStudentData := none }
    if idTruthy st.selectedSchoolId && decide (0 < st.studentAggregates.length) then
      { st1 with studentsForSelector := st.studentAggregates.map studentFromAggregate }
    else
      st1
  else
    match cohortId with
    | none => st
    | some cid =>
      { st with
        selectedCohortId := some cid
        selectedStudentId := none
        individualStudentData := none
        studentsForSelector :=
          (st.cohortStudentAggregates.filter (fun r => r.cohort_id == cid)).map
            studentFromAggregate }

/-- Synchronous half of handleStudentSelection before the await: loading
flag set, error cleared, student id set. -/
def handleStudentSelectionStart (st : AppState) (studentId : Int) : AppState :=
  { st with
    studentLoading := true
    error := none
    selectedStudentId := some studentId }

/-- Synchronous half of handleStudentSelection after the await: the
response is stored unconditionally (no check that the selection still
matches the request) and the loading flag cleared. -/
def handleStudentFetchArrival (st : AppState) (response : List LessonRecord) :
    AppState :=
  { st with
    individualStudentData := some response
    studentLoading := false }

/-- handleStudentSelection under run-to-completion (the fetch resolves
before the next mutator runs): falsy id clears student and records,
truthy id runs the start half then stores the fetched records. -/
def handleStudentSelection (env : Env) (st : AppState) (studentId : Option Int) :
    AppState :=
  if !(idTruthy studentId) then
    { st with
      selectedStudentId := none
      individualStudentData := none }
  else
    match studentId with
    | none => st
    | some sid =>
      handleStudentFetchArrival (handleStudentSelectionStart st sid)
        (env.getIndividualStudentData sid)

/-- One value of the three grouping maps of perStudentAggregates:
level id, level name, and the two accumulated counts. -/
structure GroupEntry where
  id : Int
  name : String
  total_lessons : Nat
  completed_lessons : Nat
deriving Repr, DecidableEq

/-- One forEach step of perStudentAggregates on one grouping map: the
source keys its Map by the template string of id and dash and name,
which is injective in the (id, name) pair for numeric ids, so the key is
modelled as that pair.  A missing key inserts a zeroed entry (in
insertion order, matching Map iteration order); then total_lessons is
incremented and completed_lessons is incremented when completion_date is
truthy.  Insertion and increment are fused here. -/
def insertLesson (i : Int) (n : String) (c : Bool) :
    List GroupEntry → List GroupEntry
  | [] => [⟨i, n, 1, if c then 1 else 0⟩]
  | e :: rest =>
    if e.id = i ∧ e.name = n then
      { e with
        total_lessons := e.total_lessons + 1
        completed_lessons := e.completed_lessons + (if c then 1 else 0) } :: rest
    else
      e :: insertLesson i n c rest

/-- One grouping map of perStudentAggregates, for the level whose id and
name are read by the key function. -/
def groupLessons (key : LessonRecord → Int × String) (data : List LessonRecord) :
    List GroupEntry :=
  data.foldl
    (fun acc l => insertLesson (key l).1 (key l).2 (strTruthy l.completion_date) acc)
    []

/-- The three grouping aggregates computed by perStudentAggregates. -/
structure PerStudentAggregates where
  collectionAggregates : List GroupEntry
  courseAggregates : List GroupEntry
  chapterAggregates : List GroupEntry
deriving Repr, DecidableEq

/-- perStudentAggregates (App.tsx): empty maps unless a student is
selected (truthily) and lesson records are held; otherwise the full
unfiltered record list is grouped at collection, course and chapter
level.  The four curriculum filter ids are not read. -/
def perStudentAggregates (st : AppState) : PerStudentAggregates :=
  if !(idTruthy st.selectedStudentId) then ⟨[], [], []⟩
  else
    match st.individualStudentData with
    | none => ⟨[], [], []⟩
    | some data =>
      { collectionAggregates := groupLessons (fun l => (l.collection_id, l.collection_name)) data
        courseAggregates := groupLessons (fun l => (l.course_id, l.course_name)) data
        chapterAggregates := groupLessons (fun l => (l.chapter_id, l.chapter_name)) data }

/-- The curriculum-filter step of calculatedStudentMetrics (and of
ProgressChart's table view): at most one filter applies, the most
specific truthy one, in the order chapter, course, collection,
curriculum. -/
def applyCurriculumFilters (chap cour coll curr : Option Int)
    (data : List LessonRecord) : List LessonRecord :=
  if idTruthy chap then data.filter (fun l => some l.chapter_id == chap)
  else if idTruthy cour then data.filter (fun l => some l.course_id == cour)
  else if idTruthy coll then data.filter (fun l => some l.collection_id == coll)
  else if idTruthy curr then data.filter (fun l => some l.curriculum_id == curr)
  else data

/-- The title of calculatedStudentMetrics: the name field of the first
filtered record at the most specific truthy filter level, with the
generic level word as fallback, or the generic label with no filter. -/
def studentMetricsTitle (st : AppState) (filteredData : List LessonRecord) :
    String :=
  if idTruthy st.selectedChapterId then
    "Student: " ++ jsOrStr (filteredData.head?.map (fun l => l.chapter_name)) "Chapter"
  else if idTruthy st.selectedCourseId then
    "Student: " ++ jsOrStr (filteredData.head?.map (fun l => l.course_name)) "Course"
  else if idTruthy st.selectedCollectionId then
    "Student: " ++ jsOrStr (filteredData.head?.map (fun l => l.collection_name)) "Collection"
  else if idTruthy st.selectedCurriculumId then
    "Student: " ++ jsOrStr (filteredData.head?.map (fun l => l.curriculum_name)) "Curriculum"
  else
    "Student Progress"

/-- calculatedStudentMetrics (App.tsx): null unless a student is
selected (truthily) and lesson records are held; otherwise the records
are filtered by the most specific truthy curriculum filter and the four
counts and the title are computed from the filtered list. -/
def calculatedStudentMetrics (st : AppState) : Option Metrics :=
  if !(idTruthy st.selectedStudentId) then none
  else
    match st.individualStudentData with
    | none => none
    | some data =>
      let filteredData := applyCurriculumFilters st.selectedChapterId
        st.selectedCourseId st.selectedCollectionId st.selectedCurriculumId data
      some
        { totalLessons := filteredData.length
          totalCompleted := (filteredData.filter (fun l => strTruthy l.completion_date)).length
          requiredLessons := (filteredData.filter (fun l => l.is_required)).length
          requiredCompleted :=
            (filteredData.filter (fun l => l.is_required && strTruthy l.completion_date)).length
          title := studentMetricsTitle st filteredData }

/-- The field renames of currentAggregate when a row is found: the
source reads each field with a zero fallback, which is the identity on
these Nat-typed counts. -/
def formatRow (row : AggRow) (title : String) : Metrics :=
  { totalLessons := row.total_lessons_expected
    totalCompleted := row.total_lessons_completed
    requiredLessons := row.required_lessons_expected
    requiredCompleted := row.required_lessons_completed
    title := title }

/-- The useCohortData flag of currentAggregate. -/
def useCohortData (st : AppState) : Bool :=
  idTruthy st.selectedCohortId && decide (0 < st.cohortAggregates.length)

/-- The row lookup of currentAggregate: the chain of filter levels from
most to least specific, each searching the cohort- or school-scoped
table of that level, then the cohort row or the first school row when no
filter is truthy; returns the found row and its title. -/
def resolverLookup (st : AppState) : Option (AggRow × String) :=
  if idTruthy st.selectedChapterId then
    (if useCohortData st then
        st.cohortChapterAggregates.find? (fun c => some c.chapter_id == st.selectedChapterId)
      else
        st.chapterAggregates.find? (fun c => some c.chapter_id == st.selectedChapterId)).map
      (fun data => (data, "Chapter: " ++ data.chapter_name))
  else if idTruthy st.selectedCourseId then
    (if useCohortData st then
        st.cohortCourseAggregates.find? (fun c => some c.course_id == st.selectedCourseId)
      else
        st.courseAggregates.find? (fun c => some c.course_id == st.selectedCourseId)).map
      (fun data => (data, "Course: " ++ data.course_name))
  else if idTruthy st.selectedCollectionId then
    (if useCohortData st then
        st.cohortCollectionAggregates.find? (fun c => some c.collection_id == st.selectedCollectionId)
      else
        st.collectionAggregates.find? (fun c => some c.collection_id == st.selectedCollectionId)).map
      (fun data => (data, "Collection: " ++ data.collection_name))
  else if idTruthy st.selectedCurriculumId then
    (if useCohortData st then
        st.cohortCurriculumAggregates.find? (fun c => some c.curriculum_id == st.selectedCurriculumId)
      else
        st.curriculumAggregates.find? (fun c => some c.curriculum_id == st.selectedCurriculumId)).map
      (fun data => (data, "Curriculum: " ++ data.curriculum_name))
  else
    if useCohortData st then
      (st.cohortAggregates.find? (fun agg => some agg.cohort_id == st.selectedCohortId)).map
        (fun data => (data, "Cohort: " ++ data.cohort_name))
    else
      st.schoolAggregates.head?.map (fun data => (data, "School: " ++ data.school_name))

/-- currentAggregate (App.tsx), the Aggregate Resolver: calculated
student metrics verbatim when a student is selected and they are
non-null; otherwise the looked-up row reshaped by formatRow, or null
when no row is found. -/
def currentAggregate (st : AppState) : Option Metrics :=
  if idTruthy st.selectedStudentId && (calculatedStudentMetrics st).isSome then
    calculatedStudentMetrics st
  else
    match resolverLookup st with
    | some (row, title) => some (formatRow row title)
    | none => none

/-- Math.round of a nonnegative JS number: floor of the value plus one
half (JS rounds half toward positive infinity). -/
def jsRound (q : ℚ) : ℤ := ⌊q + 1/2⌋

/-- displayData (ProgressChart): calculated student metrics, else the
current aggregate, else the zero fallback. -/
def displayData (calculated current : Option Metrics) : Metrics :=
  match calculated with
  | some m => m
  | none =>
    match current with
    | some m => m
    | none => ⟨0, 0, 0, 0, "No Data Available"⟩

/-- totalPercentage (ProgressChart): guarded division. -/
def totalPercentage (d : Metrics) : ℤ :=
  if 0 < d.totalLessons then
    jsRound ((d.totalCompleted : ℚ) / (d.totalLessons : ℚ) * 100)
  else 0

/-- requiredPercentage (ProgressChart): guarded division. -/
def requiredPercentage (d : Metrics) : ℤ :=
  if 0 < d.requiredLessons then
    jsRound ((d.requiredCompleted : ℚ) / (d.requiredLessons : ℚ) * 100)
  else 0

/-- One mutator invocation of the Selection State Machine. -/
inductive Call where
  | school (id : Option Int)
  | cohort (id : Option Int)
  | student (id : Option Int)
  | curriculum (id : Option Int)
  | collection (id : Option Int)
  | course (id : Option Int)
  | chapter (id : Option Int)
deriving Repr, DecidableEq

/-- Dispatch of one mutator call. -/
def step (env : Env) (st : AppState) : Call → AppState
  | Call.school id => handleSchoolSelection env st id
  | Call.cohort id => handleCohortSelection st id
  | Call.student id => handleStudentSelection env st id
  | Call.curriculum id => handleCurriculumSelection st id
  | Call.collection id => handleCollectionSelection st id
  | Call.course id => handleCourseSelection st id
  | Call.chapter id => handleChapterSelection st id

/-- A finite sequence of mutator calls, run left to right. -/
def run (env : Env) (st : AppState) (calls : List Call) : AppState :=
  calls.foldl (step env) st

/-- The all-null initial state of App.tsx. -/
def emptyState : AppState :=
  { selectedSchoolId := none
    selectedCohortId := none
    selectedStudentId := none
    individualStudentData := none
    schoolAggregates := []
    curriculumAggregates := []
    collectionAggregates := []
    courseAggregates := []
    chapterAggregates := []
    studentAggregates := []
    studentsForSelector := []
    cohortAggregates := []
    cohortCurriculumAggregates := []
    cohortCollectionAggregates := []
    cohortCourseAggregates := []
    cohortChapterAggregates := []
    cohortStudentAggregates := []
    selectedCurriculumId := none
    selectedCollectionId := none
    selectedCourseId := none
    selectedChapterId := none
    cohorts := []
    error := none
    loading := false
    studentLoading := false }

/-- The empty batched-fetch response. -/
def emptyBundle : SchoolBundle :=
  ⟨[], [], [], [], [], [], [], [], [], [], [], [], []⟩

/-- A default environment: nobody logged in, access always granted,
every fetch returns empty data. -/
def envDefault : Env :=
  { currentUser := none
    canAccessSchool := fun _ => true
    getAggregatedDataForSchool := fun _ => emptyBundle
    getCohorts := fun _ => []
    getIndividualStudentData := fun _ => [] }

/-- The cascade invariant claimed by the spec: a non-null finer id
implies non-null ancestors in the same cascade. -/
def cascadeConsistent (st : AppState) : Prop :=
  (st.selectedStudentId ≠ none → st.selectedSchoolId ≠ none) ∧
  (st.selectedCohortId ≠ none → st.selectedSchoolId ≠ none) ∧
  (st.selectedChapterId ≠ none → st.selectedCourseId ≠ none) ∧
  (st.selectedCourseId ≠ none → st.selectedCollectionId ≠ none) ∧
  (st.selectedCollectionId ≠ none → st.selectedCurriculumId ≠ none)

instance (st : AppState) : Decidable (cascadeConsistent st) := by
  unfold cascadeConsistent; infer_instance

/-- After a given mutator call, the ids strictly finer than the mutated
level in the same cascade are null. -/
def finerCleared : Call → AppState → Prop
  | Call.school _, st =>
    st.selectedCohortId = none ∧ st.selectedStudentId = none ∧
      st.individualStudentData = none
  | Call.cohort _, st =>
    st.selectedStudentId = none ∧ st.individualStudentData = none
  | Call.student _, _st => True
  | Call.curriculum _, st =>
    st.selectedCollectionId = none ∧ st.selectedCourseId = none ∧
      st.selectedChapterId = none
  | Call.collection _, st =>
    st.selectedCourseId = none ∧ st.selectedChapterId = none
  | Call.course _, st => st.selectedChapterId = none
  | Call.chapter _, _st => True

/-- Whether a call is refused by the access check (only a truthy school
selection can be). -/
def callDenied (env : Env) : Call → Bool
  | Call.school (some sid) => idTruthy (some sid) && accessDenied env sid
  | _ => false

/-- Observation of a grouping map: total_lessons of the first entry
with the given id and name, zero if absent. -/
def groupTotal (i : Int) (n : String) : List GroupEntry → Nat
  | [] => 0
  | e :: rest => if e.id = i ∧ e.name = n then e.total_lessons else groupTotal i n rest

/-- Observation of a grouping map: completed_lessons of the first entry
with the given id and name, zero if absent. -/
def groupCompleted (i : Int) (n : String) : List GroupEntry → Nat
  | [] => 0
  | e :: rest => if e.id = i ∧ e.name = n then e.completed_lessons else groupCompleted i n rest

theorem groupTotal_insertLesson (i' : Int) (n' : String) (c : Bool) (i : Int)
    (n : String) (acc : List GroupEntry) :
    groupTotal i n (insertLesson i' n' c acc)
      = groupTotal i n acc + (if i' = i ∧ n' = n then 1 else 0) := by
  induction acc with
  | nil =>
    by_cases h : i' = i ∧ n' = n
    · simp [insertLesson, groupTotal, h]
    · simp [insertLesson, groupTotal, h]
  | cons e rest ih =>
    by_cases he : e.id = i' ∧ e.name = n'
    · by_cases hm : e.id = i ∧ e.name = n
      · have hin : i' = i ∧ n' = n := by
          refine ⟨?_, ?_⟩
          · rw [← he.1, hm.1]
          · rw [← he.2, hm.2]
        simp [insertLesson, groupTotal, he, hm, hin]
      · have hni : ¬(i' = i ∧ n' = n) := by
          intro hin
          exact hm ⟨he.1.trans hin.1, he.2.trans hin.2⟩
        simp [insertLesson, groupTotal, he, hm, hni]
    · by_cases hm : e.id = i ∧ e.name = n
      · have hni : ¬(i' = i ∧ n' = n) := by
          intro hin
          exact he ⟨hm.1.trans hin.1.symm, hm.2.trans hin.2.symm⟩
        have hni2 : ¬(i = i' ∧ n = n') := fun hin => hni ⟨hin.1.symm, hin.2.symm⟩
        simp [insertLesson, groupTotal, he, hm, hni, hni2]
      · simp [insertLesson, groupTotal, he, hm, ih]

theorem groupCompleted_insertLesson (i' : Int) (n' : String) (c : Bool) (i : Int)
    (n : String) (acc : List GroupEntry) :
    groupCompleted i n (insertLesson i' n' c acc)
      = groupCompleted i n acc
        + (if i' = i ∧ n' = n then (if c then 1 else 0) else 0) := by
  induction acc with
  | nil =>
    by_cases h : i' = i ∧ n' = n
    · simp [insertLesson, groupCompleted, h]
    · simp [insertLesson, groupCompleted, h]
  | cons e rest ih =>
    by_cases he : e.id = i' ∧ e.name = n'
    · by_cases hm : e.id = i ∧ e.name = n
      · have hin : i' = i ∧ n' = n := by
          refine ⟨?_, ?_⟩
          · rw [← he.1, hm.1]
          · rw [← he.2, hm.2]
        simp [insertLesson, groupCompleted, he, hm, hin]
      · have hni : ¬(i' = i ∧ n' = n) := by
          intro hin
          exact hm ⟨he.1.trans hin.1, he.2.trans hin.2⟩
        simp [insertLesson, groupCompleted, he, hm, hni]
    · by_cases hm : e.id = i ∧ e.name = n
      · have hni : ¬(i' = i ∧ n' = n) := by
          intro hin
          exact he ⟨hm.1.trans hin.1.symm, hm.2.trans hin.2.symm⟩
        have hni2 : ¬(i = i' ∧ n = n') := fun hin => hni ⟨hin.1.symm, hin.2.symm⟩
        simp [insertLesson, groupCompleted, he, hm, hni, hni2]
      · simp [insertLesson, groupCompleted, he, hm, ih]

theorem groupTotal_foldl (key : LessonRecord → Int × String) (i : Int) (n : String)
    (data : List LessonRecord) :
    ∀ acc : List GroupEntry,
      groupTotal i n
        (data.foldl
          (fun a l => insertLesson (key l).1 (key l).2 (strTruthy l.completion_date) a)
          acc)
        = groupTotal i n acc
          + (data.filter (fun l => decide ((key l).1 = i ∧ (key l).2 = n))).length := by
  induction data with
  | nil => intro acc; simp
  | cons l rest ih =>
    intro acc
    simp only [List.foldl_cons, List.filter_cons]
    rw [ih, groupTotal_insertLesson]
    by_cases h : (key l).1 = i ∧ (key l).2 = n
    · simp [h]; omega
    · simp [h]

theorem groupCompleted_foldl (key : LessonRecord → Int × String) (i : Int)
    (n : String) (data : List LessonRecord) :
    ∀ acc : List GroupEntry,
      groupCompleted i n
        (data.foldl
          (fun a l => insertLesson (key l).1 (key l).2 (strTruthy l.completion_date) a)
          acc)
        = groupCompleted i n acc
          + (data.filter
              (fun l =>
                decide ((key l).1 = i ∧ (key l).2 = n) && strTruthy l.completion_date)).length := by
  induction data with
  | nil => intro acc; simp
  | cons l rest ih =>
    intro acc
    simp only [List.foldl_cons, List.filter_cons]
    rw [ih, groupCompleted_insertLesson]
    by_cases h : (key l).1 = i ∧ (key l).2 = n
    · by_cases hc : strTruthy l.completion_date
      · simp [h, hc]; omega
      · simp [h, hc]
    · simp [h]

theorem groupTotal_groupLessons (key : LessonRecord → Int × String) (i : Int)
    (n : String) (data : List LessonRecord) :
    groupTotal i n (groupLessons key data)
      = (data.filter (fun l => decide ((key l).1 = i ∧ (key l).2 = n))).length := by
  have h := groupTotal_foldl key i n data []
  simpa [groupLessons, groupTotal] using h

theorem groupCompleted_groupLessons (key : LessonRecord → Int × String) (i : Int)
    (n : String) (data : List LessonRecord) :
    groupCompleted i n (groupLessons key data)
      = (data.filter
          (fun l =>
            decide ((key l).1 = i ∧ (key l).2 = n) && strTruthy l.completion_date)).length := by
  have h := groupCompleted_foldl key i n data []
  simpa [groupLessons, groupCompleted] using h

/-- A neutral lesson record used to build concrete inputs. -/
def baseLesson : LessonRecord :=
  { lesson_id := 0
    lesson_name := "L"
    chapter_id := 0
    chapter_name := "Ch"
    course_id := 0
    course_name := "Co"
    collection_id := 0
    collection_name := "Cl"
    curriculum_id := 0
    curriculum_name := "Cu"
    is_required := false
    completion_date := none
    engagement_date := none }

/-- A neutral aggregate row used to populate concrete tables. -/
def baseRow : AggRow :=
  { school_id := 1
    school_name := "S"
    cohort_id := 2
    cohort_name := "C"
    curriculum_id := 3
    curriculum_name := "Cu"
    collection_id := 4
    collection_name := "Cl"
    course_id := 5
    course_name := "Co"
    chapter_id := 6
    chapter_name := "Ch"
    student_id := 7
    student_email := some "e"
    student_first := some "f"
    student_last := some "l"
    total_lessons_expected := 10
    total_lessons_completed := 4
    required_lessons_expected := 8
    required_lessons_completed := 3 }

/-- Claim C1: if a student is selected and the filtered student metrics
are non-null, the Aggregate Resolver returns exactly those metrics,
whatever the selected cohort id and the twelve aggregate tables hold. -/
theorem C1_resolver_student_precedence (st : AppState) (m : Metrics)
    (_h1 : st.selectedStudentId ≠ none)
    (h2 : calculatedStudentMetrics st = some m) :
    currentAggregate st = some m := by
  have htr : idTruthy st.selectedStudentId = true := by
    cases hb : idTruthy st.selectedStudentId
    · rw [calculatedStudentMetrics, hb] at h2
      simp at h2
    · rfl
  simp [currentAggregate, htr, h2]

/-- A state with a student selected, empty lesson data, and populated
cohort and school tables that must be ignored by the resolver. -/
def stC1 : AppState :=
  { emptyState with
    selectedStudentId := some 1
    individualStudentData := some []
    selectedCohortId := some 2
    schoolAggregates := [baseRow]
    cohortAggregates := [baseRow]
    cohortChapterAggregates := [baseRow] }

/-- Witness for C1 at a concrete state. -/
theorem C1_resolver_student_precedence_witness :
    stC1.selectedStudentId ≠ none ∧
    calculatedStudentMetrics stC1 = some ⟨0, 0, 0, 0, "Student Progress"⟩ ∧
    currentAggregate stC1 = some ⟨0, 0, 0, 0, "Student Progress"⟩ :=
  ⟨by decide, by decide,
    C1_resolver_student_precedence stC1 ⟨0, 0, 0, 0, "Student Progress"⟩
      (by decide) (by decide)⟩

/-- A prior state with a curriculum filter and a cohort selected. -/
def stC2 : AppState :=
  { emptyState with
    selectedCurriculumId := some 1
    selectedCohortId := some 3 }

/-- Counterexample to claim C2: selecting school 2 from a state with
curriculum filter 1 leaves the curriculum filter id non-null —
handleSchoolSelection never clears the four filter ids. -/
theorem C2_counterexample :
    (handleSchoolSelection envDefault stC2 (some 2)).selectedCurriculumId ≠ none := by
  decide

/-- Claim C2 as amended: for a truthy school id passing the access
check, handleSchoolSelection clears the cohort id, the student id and
the held lesson records and sets the school, but leaves all four
curriculum-filter ids unchanged (it does not clear them). -/
theorem C2_school_selection_amended (env : Env) (st : AppState) (sid : Int)
    (htr : idTruthy (some sid) = true)
    (hacc : accessDenied env sid = false) :
    (handleSchoolSelection env st (some sid)).selectedCohortId = none ∧
    (handleSchoolSelection env st (some sid)).selectedStudentId = none ∧
    (handleSchoolSelection env st (some sid)).individualStudentData = none ∧
    (handleSchoolSelection env st (some sid)).selectedSchoolId = some sid ∧
    (handleSchoolSelection env st (some sid)).selectedCurriculumId = st.selectedCurriculumId ∧
    (handleSchoolSelection env st (some sid)).selectedCollectionId = st.selectedCollectionId ∧
    (handleSchoolSelection env st (some sid)).selectedCourseId = st.selectedCourseId ∧
    (handleSchoolSelection env st (some sid)).selectedChapterId = st.selectedChapterId := by
  unfold handleSchoolSelection
  simp [htr, hacc]

/-- Witness for the amended C2 at a concrete state and school. -/
theorem C2_school_selection_amended_witness :
    idTruthy (some (2 : Int)) = true ∧
    accessDenied envDefault 2 = false ∧
    (handleSchoolSelection envDefault stC2 (some 2)).selectedCurriculumId
      = stC2.selectedCurriculumId :=
  ⟨by decide, by decide,
    (C2_school_selection_amended envDefault stC2 2 (by decide) (by decide)).2.2.2.2.1⟩

/-- Counterexample to claim C3: the single call selectChapter(5) from
the all-null state sets the chapter id while the course id stays null,
so the ancestor direction of the cascade invariant fails. -/
theorem C3_counterexample :
    ¬ cascadeConsistent (run envDefault emptyState [Call.chapter (some 5)]) := by
  decide

/-- Claim C3 as amended: the mutators enforce only the downward
direction — after any mutator call that the access check does not
refuse, every id strictly finer than the mutated level in the same
cascade is null; no mutator checks or sets ancestors, so a finer id can
be non-null while its ancestors are null. -/
theorem C3_cascade_amended (env : Env) (st : AppState) (c : Call)
    (h : callDenied env c = false) :
    finerCleared c (step env st c) := by
  cases c with
  | school id =>
    cases id with
    | none => simp [step, handleSchoolSelection, finerCleared, idTruthy]
    | some sid =>
      cases htr : idTruthy (some sid) with
      | false => simp [step, handleSchoolSelection, finerCleared, htr]
      | true =>
        have hacc : accessDenied env sid = false := by
          rw [callDenied, htr] at h
          simpa using h
        simp [step, handleSchoolSelection, finerCleared, htr, hacc]
  | cohort id =>
    cases htr : idTruthy id with
    | false =>
      cases hb : idTruthy st.selectedSchoolId && decide (0 < st.studentAggregates.length) <;>
        simp [step, handleCohortSelection, finerCleared, htr, hb]
    | true =>
      cases id with
      | none => simp [idTruthy] at htr
      | some cid => simp [step, handleCohortSelection, finerCleared, htr]
  | student id => simp [step, finerCleared]
  | curriculum id => simp [step, handleCurriculumSelection, finerCleared]
  | collection id => simp [step, handleCollectionSelection, finerCleared]
  | course id => simp [step, handleCourseSelection, finerCleared]
  | chapter id => simp [step, finerCleared]

/-- Witness for the amended C3 at a concrete call. -/
theorem C3_cascade_amended_witness :
    callDenied envDefault (Call.curriculum (some 4)) = false ∧
    finerCleared (Call.curriculum (some 4))
      (step envDefault emptyState (Call.curriculum (some 4))) :=
  ⟨by decide,
    C3_cascade_amended envDefault emptyState (Call.curriculum (some 4)) (by decide)⟩

/-- Claim C4: when the chapter filter is set (truthily), the
Per-Student Aggregator keeps exactly the records with that chapter id —
the course, collection and curriculum ids are quantified arbitrarily on
the left and absent on the right, so they have no effect on the
filtered set. -/
theorem C4_filter_exclusivity (data : List LessonRecord)
    (chap cour coll curr : Option Int)
    (h : idTruthy chap = true) :
    applyCurriculumFilters chap cour coll curr data
      = data.filter (fun l => some l.chapter_id == chap) := by
  unfold applyCurriculumFilters
  simp [h]

/-- Lesson in chapter 5, deliberately outside the selected course 7 and
collection 8 of the C4 witness. -/
def lessonC4a : LessonRecord :=
  { baseLesson with
    chapter_id := 5, course_id := 70, collection_id := 80, curriculum_id := 9 }

/-- Lesson outside chapter 5 but inside course 7 and collection 8. -/
def lessonC4b : LessonRecord :=
  { baseLesson with
    chapter_id := 6, course_id := 7, collection_id := 8, curriculum_id := 9 }

/-- Witness for C4: chapter 5 and curriculum 9 both set; only the
chapter filter applies, keeping the record that does not match the
selected course or collection. -/
theorem C4_filter_exclusivity_witness :
    idTruthy (some (5 : Int)) = true ∧
    applyCurriculumFilters (some 5) (some 7) (some 8) (some 9) [lessonC4a, lessonC4b]
      = [lessonC4a, lessonC4b].filter (fun l => some l.chapter_id == some (5 : Int)) ∧
    applyCurriculumFilters (some 5) (some 7) (some 8) (some 9) [lessonC4a, lessonC4b]
      = [lessonC4a] :=
  ⟨by decide,
    C4_filter_exclusivity [lessonC4a, lessonC4b] (some 5) (some 7) (some 8) (some 9)
      (by decide),
    by decide⟩

/-- Two lessons sharing collection id 1 under different collection
names, for the C5 counterexample. -/
def lessonC5a : LessonRecord := { baseLesson with collection_id := 1, collection_name := "A" }

/-- Second lesson of the C5 counterexample. -/
def lessonC5b : LessonRecord := { baseLesson with collection_id := 1, collection_name := "B" }

/-- Record list of the C5 counterexample. -/
def dataC5 : List LessonRecord := [lessonC5a, lessonC5b]

/-- State of the C5 counterexample: student selected with dataC5 held. -/
def stC5 : AppState :=
  { emptyState with
    selectedStudentId := some 7
    individualStudentData := some dataC5 }

/-- Counterexample to claim C5: the collection mapping produced for
dataC5 holds two distinct entries that both carry collection id 1, each
with total_lessons 1, while 2 records carry collection id 1 — so the
mapping is not keyed by collection_id and no entry counts the records
of its collection id. -/
theorem C5_counterexample :
    ((perStudentAggregates stC5).collectionAggregates.map
        (fun e => (e.id, e.name, e.total_lessons)))
      = [(1, "A", 1), (1, "B", 1)] ∧
    (dataC5.filter (fun l => l.collection_id == 1)).length = 2 := by
  decide

/-- Claim C5 as amended: the grouping aggregates are computed over the
full unfiltered record list as three mappings keyed jointly by the
level id and level name; the entry of a given id-name pair counts the
records with that pair, and its completed_lessons counts, of those, the
records with truthy (non-null and non-empty) completion_date. -/
theorem C5_grouping_amended (st : AppState) (data : List LessonRecord)
    (i : Int) (n : String)
    (h1 : idTruthy st.selectedStudentId = true)
    (h2 : st.individualStudentData = some data) :
    (groupTotal i n (perStudentAggregates st).collectionAggregates
      = (data.filter (fun l => decide (l.collection_id = i ∧ l.collection_name = n))).length ∧
     groupCompleted i n (perStudentAggregates st).collectionAggregates
      = (data.filter (fun l =>
          decide (l.collection_id = i ∧ l.collection_name = n)
            && strTruthy l.completion_date)).length) ∧
    (groupTotal i n (perStudentAggregates st).courseAggregates
      = (data.filter (fun l => decide (l.course_id = i ∧ l.course_name = n))).length ∧
     groupCompleted i n (perStudentAggregates st).courseAggregates
      = (data.filter (fun l =>
          decide (l.course_id = i ∧ l.course_name = n)
            && strTruthy l.completion_date)).length) ∧
    (groupTotal i n (perStudentAggregates st).chapterAggregates
      = (data.filter (fun l => decide (l.chapter_id = i ∧ l.chapter_name = n))).length ∧
     groupCompleted i n (perStudentAggregates st).chapterAggregates
      = (data.filter (fun l =>
          decide (l.chapter_id = i ∧ l.chapter_name = n)
            && strTruthy l.completion_date)).length) := by
  unfold perStudentAggregates
  rw [h2]
  simp only [h1, Bool.not_true, Bool.false_eq_true, if_false]
  exact
    ⟨⟨groupTotal_groupLessons (fun l => (l.collection_id, l.collection_name)) i n data,
      groupCompleted_groupLessons (fun l => (l.collection_id, l.collection_name)) i n data⟩,
     ⟨groupTotal_groupLessons (fun l => (l.course_id, l.course_name)) i n data,
      groupCompleted_groupLessons (fun l => (l.course_id, l.course_name)) i n data⟩,
     ⟨groupTotal_groupLessons (fun l => (l.chapter_id, l.chapter_name)) i n data,
      groupCompleted_groupLessons (fun l => (l.chapter_id, l.chapter_name)) i n data⟩⟩

/-- First record of the spec's worked example: collection 1, not
completed. -/
def lessonEx1 : LessonRecord :=
  { baseLesson with
    collection_id := 1, collection_name := "Family Medicine", completion_date := none }

/-- Second record of the spec's worked example: collection 1, completed. -/
def lessonEx2 : LessonRecord :=
  { baseLesson with
    collection_id := 1, collection_name := "Family Medicine",
    completion_date := some "2024-01-01" }

/-- Third record of the spec's worked example: collection 2, not
completed. -/
def lessonEx3 : LessonRecord :=
  { baseLesson with
    collection_id := 2, collection_name := "Emergency Medicine", completion_date := none }

/-- Record list of the spec's worked example. -/
def dataEx : List LessonRecord := [lessonEx1, lessonEx2, lessonEx3]

/-- State holding the spec's worked example for a selected student. -/
def stC5ex : AppState :=
  { emptyState with
    selectedStudentId := some 7
    individualStudentData := some dataEx }

/-- Witness for the amended C5 at the spec's worked example: collection
1 yields total 2 and completed 1, collection 2 yields total 1 and
completed 0. -/
theorem C5_grouping_amended_witness :
    idTruthy stC5ex.selectedStudentId = true ∧
    groupTotal 1 "Family Medicine" (perStudentAggregates stC5ex).collectionAggregates = 2 ∧
    groupCompleted 1 "Family Medicine" (perStudentAggregates stC5ex).collectionAggregates = 1 ∧
    groupTotal 2 "Emergency Medicine" (perStudentAggregates stC5ex).collectionAggregates = 1 ∧
    groupCompleted 2 "Emergency Medicine" (perStudentAggregates stC5ex).collectionAggregates = 0 ∧
    groupTotal 1 "Family Medicine" (perStudentAggregates stC5ex).collectionAggregates
      = (dataEx.filter (fun l =>
          decide (l.collection_id = 1 ∧ l.collection_name = "Family Medicine"))).length :=
  ⟨by decide, by decide, by decide, by decide, by decide,
    (C5_grouping_amended stC5ex dataEx 1 "Family Medicine" (by decide) rfl).1.1⟩

/-- Claim C6: for every resolver output or the zero fallback, the
display percentages equal the rounded ratio scaled by 100 when the
denominator is positive and 0 when the denominator is 0; both are
integer-valued for every input. -/
theorem C6_percentage_safety (cm ca : Option Metrics) :
    (totalPercentage (displayData cm ca)
      = if (displayData cm ca).totalLessons = 0 then 0
        else jsRound (100 * ((displayData cm ca).totalCompleted : ℚ)
          / ((displayData cm ca).totalLessons : ℚ))) ∧
    (requiredPercentage (displayData cm ca)
      = if (displayData cm ca).requiredLessons = 0 then 0
        else jsRound (100 * ((displayData cm ca).requiredCompleted : ℚ)
          / ((displayData cm ca).requiredLessons : ℚ))) := by
  constructor
  · unfold totalPercentage
    rcases Nat.eq_zero_or_pos (displayData cm ca).totalLessons with h | h
    · simp [h]
    · rw [if_pos h, if_neg (Nat.pos_iff_ne_zero.mp h)]
      congr 1
      ring
  · unfold requiredPercentage
    rcases Nat.eq_zero_or_pos (displayData cm ca).requiredLessons with h | h
    · simp [h]
    · rw [if_pos h, if_neg (Nat.pos_iff_ne_zero.mp h)]
      congr 1
      ring

/-- Claim C7: when the student path is not taken and the lookup at the
level chosen by the precedence chain finds no row (covering empty
tables and ids with no matching row), the resolver returns the explicit
null result; being a total function of the state, it never throws. -/
theorem C7_resolver_no_data (st : AppState)
    (h1 : (idTruthy st.selectedStudentId && (calculatedStudentMetrics st).isSome) = false)
    (h2 : resolverLookup st = none) :
    currentAggregate st = none := by
  simp [currentAggregate, h1, h2]

/-- Witness for C7 at the all-null state with all tables empty. -/
theorem C7_resolver_no_data_witness :
    (idTruthy emptyState.selectedStudentId
      && (calculatedStudentMetrics emptyState).isSome) = false ∧
    resolverLookup emptyState = none ∧
    currentAggregate emptyState = none :=
  ⟨by decide, by decide, C7_resolver_no_data emptyState (by decide) (by decide)⟩

/-- A supaadmin user for the C8 counterexample. -/
def userSupa : FacultyUser := { id := -1, email := "s", school_id := 1, role := "supaadmin" }

/-- Environment whose access oracle refuses every school while a
supaadmin is logged in. -/
def envC8 : Env :=
  { envDefault with currentUser := some userSupa, canAccessSchool := fun _ => false }

/-- Counterexample to claim C8: with a supaadmin current user the
access check is skipped, so a school the oracle refuses is still
selected (state changed) and no error message is produced. -/
theorem C8_counterexample :
    envC8.canAccessSchool 3 = false ∧
    (handleSchoolSelection envC8 emptyState (some 3)).selectedSchoolId
      ≠ emptyState.selectedSchoolId ∧
    (handleSchoolSelection envC8 emptyState (some 3)).error = none := by
  decide

/-- Claim C8 as amended: for a current user whose role is not supaadmin
and a truthy school id the oracle refuses, handleSchoolSelection leaves
the whole state unchanged except for setting the user-visible error
message; the selection is not applied. -/
theorem C8_access_denied_amended (env : Env) (st : AppState) (sid : Int)
    (u : FacultyUser)
    (huser : env.currentUser = some u)
    (hrole : u.role ≠ "supaadmin")
    (hacc : env.canAccessSchool sid = false)
    (htr : idTruthy (some sid) = true) :
    handleSchoolSelection env st (some sid)
      = { st with error := some "You do not have permission to access this school" } := by
  have hd : accessDenied env sid = true := by
    rw [accessDenied, huser]
    simp [hacc, hrole]
  unfold handleSchoolSelection
  simp [htr, hd]

/-- A non-supaadmin faculty user for the C8 witness. -/
def userFac : FacultyUser := { id := 2, email := "f", school_id := 1, role := "faculty" }

/-- Environment whose access oracle refuses every school while the
faculty user is logged in. -/
def envC8w : Env :=
  { envDefault with currentUser := some userFac, canAccessSchool := fun _ => false }

/-- A prior state with a school already selected and a populated table,
which the refused selection must leave intact. -/
def stC8w : AppState :=
  { emptyState with selectedSchoolId := some 1, schoolAggregates := [baseRow] }

/-- Witness for the amended C8 at a concrete user, state and school. -/
theorem C8_access_denied_amended_witness :
    envC8w.currentUser = some userFac ∧
    userFac.role ≠ "supaadmin" ∧
    envC8w.canAccessSchool 3 = false ∧
    idTruthy (some (3 : Int)) = true ∧
    handleSchoolSelection envC8w stC8w (some 3)
      = { stC8w with error := some "You do not have permission to access this school" } :=
  ⟨rfl, by decide, rfl, by decide,
    C8_access_denied_amended envC8w stC8w 3 userFac rfl (by decide) rfl (by decide)⟩

/-- Lesson record belonging to student X of the stale-response run. -/
def lessonX : LessonRecord := { baseLesson with lesson_id := 101, lesson_name := "X lesson" }

/-- Lesson record belonging to student Y of the stale-response run. -/
def lessonY : LessonRecord := { baseLesson with lesson_id := 202, lesson_name := "Y lesson" }

/-- Response of the fetch issued for student X. -/
def dataX : List LessonRecord := [lessonX]

/-- Response of the fetch issued for student Y. -/
def dataY : List LessonRecord := [lessonY]

/-- The stale-response interleaving on the code's two synchronous
halves of handleStudentSelection: fetch issued for student 1, student 2
selected before it resolves, student 2's response arrives, then student
1's late response arrives. -/
def staleRaceFinal : AppState :=
  handleStudentFetchArrival
    (handleStudentFetchArrival
      (handleStudentSelectionStart (handleStudentSelectionStart emptyState 1) 2)
      dataY)
    dataX

/-- Claim C9, evaluated at the failing interleaving: the response
handler stores a late response unconditionally, so after the run the
selected student is 2 but the held lesson records are student 1's —
the stale data the claim forbids. -/
theorem C9_stale_response_bug :
    staleRaceFinal.selectedStudentId = some 2 ∧
    staleRaceFinal.individualStudentData = some dataX ∧
    dataX ≠ dataY := by
  decide

/-- Claim C10: each of the four curriculum-filter mutators leaves the
selected school id, cohort id, student id and the held lesson records
unchanged, for every prior state and argument. -/
theorem C10_filter_mutators_frame (st : AppState) (id : Option Int) :
    ((handleCurriculumSelection st id).selectedSchoolId = st.selectedSchoolId ∧
     (handleCurriculumSelection st id).selectedCohortId = st.selectedCohortId ∧
     (handleCurriculumSelection st id).selectedStudentId = st.selectedStudentId ∧
     (handleCurriculumSelection st id).individualStudentData = st.individualStudentData) ∧
    ((handleCollectionSelection st id).selectedSchoolId = st.selectedSchoolId ∧
     (handleCollectionSelection st id).selectedCohortId = st.selectedCohortId ∧
     (handleCollectionSelection st id).selectedStudentId = st.selectedStudentId ∧
     (handleCollectionSelection st id).individualStudentData = st.individualStudentData) ∧
    ((handleCourseSelection st id).selectedSchoolId = st.selectedSchoolId ∧
     (handleCourseSelection st id).selectedCohortId = st.selectedCohortId ∧
     (handleCourseSelection st id).selectedStudentId = st.selectedStudentId ∧
     (handleCourseSelection st id).individualStudentData = st.individualStudentData) ∧
    ((handleChapterSelection st id).selectedSchoolId = st.selectedSchoolId ∧
     (handleChapterSelection st id).selectedCohortId = st.selectedCohortId ∧
     (handleChapterSelection st id).selectedStudentId = st.selectedStudentId ∧
     (handleChapterSelection st id).individualStudentData = st.individualStudentData) :=
  ⟨⟨rfl, rfl, rfl, rfl⟩, ⟨rfl, rfl, rfl, rfl⟩, ⟨rfl, rfl, rfl, rfl⟩, ⟨rfl, rfl, rfl, rfl⟩⟩

end Dashboard
